import Mathlib

/-!
# Verification of the capteur CAN request/response core

Shallow embedding of `src/main.cpp` (clubcapra/projet_capteur): the
request-bitmap decoder, the payload encoder (`encoder_uint16`,
`encoder_float_entier`, the channel loop in `loop`), and the two-frame
assembly/transmission logic.

Modelling conventions:
* Machine bytes and 16-bit values are `Nat` with explicit `% 256` / `% 65536`
  at the points where the C code performs a cast.
* The 9-byte `uint8_t donnees[9] = {0}` buffer is modelled as a total
  function `Nat → Nat` (initially constant 0) together with the running
  cursor `index`; every store `memoire[index++] = v` additionally records
  the written position in a write log, so out-of-bounds stores are
  observable in the model.
* `float` sensor readings are modelled as exact rationals `ℚ`; the C cast
  `static_cast<uint8_t>(f)` truncates toward zero, modelled as
  `(q.num / q.den).toNat % 256` (Lean's `Int` division truncates toward
  zero; for readings outside `(-1, 256)` the C cast is undefined behavior).
* The transmission side effects (`Can.write`) are modelled as the ordered
  list of frames produced by one `loop` iteration.
-/

namespace Capteur

/-- A CAN frame: identifier, declared length, data bytes.  Inbound frames
carry their data as a total byte lookup (the C array `buf[8]`). -/
structure CANMessage where
  id : Nat
  len : Nat
  buf : Nat → Nat

/-- An outbound CAN frame as handed to `Can.write`: identifier, declared
length, and the bytes actually stored in `CAN_TX_msg.buf`. -/
structure Frame where
  id : Nat
  len : Nat
  buf : List Nat
deriving DecidableEq

/-- The sensor collaborators' readings consumed by one `loop` iteration:
`SEN_094->value()` (methane), `SCD41_Sensor.getCO2()`, `MQ7->value()` (CO),
the two temperature readings, the two humidity readings, and
`BME280_Sensor.readFloatPressure()` in pascals.  Floats are exact `ℚ`. -/
structure Sensors where
  sen094 : Nat
  co2 : Nat
  mq7 : Nat
  bmeTempC : ℚ
  scdTempC : ℚ
  bmeHum : ℚ
  scdHum : ℚ
  pressPa : ℚ

/-- Encoder state: the `donnees` buffer contents, the cursor `index`, and
the log of buffer positions written so far (in program order). -/
structure EncState where
  donnees : Nat → Nat
  index : Nat
  writes : List Nat

/-- The C store `memoire[index++] = v;`: unguarded write at the cursor,
cursor advances, position is logged. -/
def writeByte (v : Nat) (st : EncState) : EncState :=
  { donnees := fun j => if j = st.index then v else st.donnees j
    index := st.index + 1
    writes := st.writes ++ [st.index] }

/-- `static_cast<uint8_t>` of a `float`: truncation toward zero, then the
low 8 bits.  `q.num / q.den` is Lean's toward-zero integer part of `q`. -/
def truncUint8 (q : ℚ) : Nat :=
  (q.num / (q.den : Int)).toNat % 256

/-- `encoder_float_entier`: keep the integer part of the reading and store
it as one byte at the cursor. -/
def encoder_float_entier (valeur : ℚ) (st : EncState) : EncState :=
  writeByte (truncUint8 valeur) st

/-- `encoder_uint16`: store `static_cast<uint8_t>(valeur >> 8)` (MSB) then
`static_cast<uint8_t>(valeur & 0xFF)` (LSB). -/
def encoder_uint16 (valeur : Nat) (st : EncState) : EncState :=
  writeByte (valeur &&& 0xFF) (writeByte ((valeur >>> 8) % 256) st)

/-- One iteration of the channel loop body in `loop`, for loop counter `i`
reading the inbound byte `CAN_RX_msg.buf[i]`.  The requested branch is the
`switch (i)`; the unrequested branch is the guarded sentinel fill. -/
def processByte (s : Sensors) (msg : CANMessage) (st : EncState) (i : Nat) : EncState :=
  if msg.buf i = 0x11 then
    match i with
    | 0 => encoder_uint16 (s.sen094 % 65536) st
    | 1 => encoder_uint16 (s.co2 % 65536) st
    | 2 => encoder_uint16 (s.mq7 % 65536) st
    | 3 => encoder_float_entier ((s.bmeTempC + s.scdTempC) / 2) st
    | 4 => encoder_float_entier ((s.bmeHum + s.scdHum) / 2) st
    | 5 => encoder_float_entier (s.pressPa / 1000) st
    | _ => st
  else
    if i ≤ 2 ∧ st.index + 1 < 9 then
      writeByte 0xFF (writeByte 0xFF st)
    else if st.index < 9 then
      writeByte 0xFF st
    else
      st

/-- `uint8_t donnees[9] = {0}; size_t index = 0;` with an empty write log. -/
def initState : EncState :=
  { donnees := fun _ => 0, index := 0, writes := [] }

/-- The encoder state after the first `n` iterations of the channel loop. -/
def stateAt (s : Sensors) (msg : CANMessage) (n : Nat) : EncState :=
  (List.range n).foldl (processByte s msg) initState

/-- The encoder state after the whole channel loop
(`for (int i = 0; i < CAN_RX_msg.len; i++)`). -/
def buildPayload (s : Sensors) (msg : CANMessage) : EncState :=
  stateAt s msg msg.len

/-- The 9-byte Encoded Payload as a byte list. -/
def encodedPayload (s : Sensors) (msg : CANMessage) : List Nat :=
  (List.range 9).map (buildPayload s msg).donnees

/-- Frame A as assembled by `loop`: `CAN_TX_msg.id = 0x1A5`, `len = 8`,
and the copy loop `CAN_TX_msg.buf[j] = donnees[j]` for `j = 0 .. 7`. -/
def frameA (s : Sensors) (msg : CANMessage) : Frame :=
  ⟨0x1A5, 8, (List.range 8).map (buildPayload s msg).donnees⟩

/-- Frame B as assembled by `loop`: `id = 0x1A6`, `len = 1`,
`buf[0] = donnees[8]`. -/
def frameB (s : Sensors) (msg : CANMessage) : Frame :=
  ⟨0x1A6, 1, [(buildPayload s msg).donnees 8]⟩

/-- Outbound frames produced by one `loop` iteration given the (optional)
received frame: Frame A always when the identifier matches `0x1A4`, then
Frame B exactly when `donnees[8] != 0`; nothing otherwise. -/
def loopStep (s : Sensors) (rx : Option CANMessage) : List Frame :=
  match rx with
  | none => []
  | some msg =>
    if msg.id = 0x1A4 then
      frameA s msg :: (if (buildPayload s msg).donnees 8 ≠ 0 then [frameB s msg] else [])
    else
      []

/-! ## Specification-side descriptions of the payload layout -/

/-- High byte of a 16-bit value, as produced by `encoder_uint16`. -/
def hi8 (v : Nat) : Nat := (v >>> 8) % 256

/-- Low byte of a 16-bit value, as produced by `encoder_uint16`. -/
def lo8 (v : Nat) : Nat := v &&& 0xFF

/-- Fixed encoding width of channel `i`: 2 bytes for channels 0–2,
1 byte for channels 3–5. -/
def channelWidth (i : Nat) : Nat := if i ≤ 2 then 2 else 1

/-- Fixed payload offset of channel `i` (also: the cursor value before loop
iteration `i`): 0, 2, 4, 6, 7, 8 for the six channels, 9 afterwards. -/
def channelOffset (i : Nat) : Nat := if i ≤ 3 then 2 * i else min 9 (i + 3)

/-- The bytes channel `i` contributes when requested. -/
def channelBytes (s : Sensors) (i : Nat) : List Nat :=
  match i with
  | 0 => [hi8 (s.sen094 % 65536), lo8 (s.sen094 % 65536)]
  | 1 => [hi8 (s.co2 % 65536), lo8 (s.co2 % 65536)]
  | 2 => [hi8 (s.mq7 % 65536), lo8 (s.mq7 % 65536)]
  | 3 => [truncUint8 ((s.bmeTempC + s.scdTempC) / 2)]
  | 4 => [truncUint8 ((s.bmeHum + s.scdHum) / 2)]
  | 5 => [truncUint8 (s.pressPa / 1000)]
  | _ => []

/-- The byte the fully-processed payload holds at position `j < 9`:
channel value when the owning channel's marker is `0x11`, sentinel `0xFF`
otherwise. -/
def specByte (s : Sensors) (msg : CANMessage) (j : Nat) : Nat :=
  if j = 0 then (if msg.buf 0 = 0x11 then hi8 (s.sen094 % 65536) else 0xFF)
  else if j = 1 then (if msg.buf 0 = 0x11 then lo8 (s.sen094 % 65536) else 0xFF)
  else if j = 2 then (if msg.buf 1 = 0x11 then hi8 (s.co2 % 65536) else 0xFF)
  else if j = 3 then (if msg.buf 1 = 0x11 then lo8 (s.co2 % 65536) else 0xFF)
  else if j = 4 then (if msg.buf 2 = 0x11 then hi8 (s.mq7 % 65536) else 0xFF)
  else if j = 5 then (if msg.buf 2 = 0x11 then lo8 (s.mq7 % 65536) else 0xFF)
  else if j = 6 then (if msg.buf 3 = 0x11 then truncUint8 ((s.bmeTempC + s.scdTempC) / 2) else 0xFF)
  else if j = 7 then (if msg.buf 4 = 0x11 then truncUint8 ((s.bmeHum + s.scdHum) / 2) else 0xFF)
  else if j = 8 then (if msg.buf 5 = 0x11 then truncUint8 (s.pressPa / 1000) else 0xFF)
  else 0

/-- The bytes the finished payload holds in channel `i`'s fixed region
(`channelWidth i` bytes starting at `channelOffset i`). -/
def channelRegion (s : Sensors) (msg : CANMessage) (i : Nat) : List Nat :=
  (List.range (channelWidth i)).map (fun k => (buildPayload s msg).donnees (channelOffset i + k))

/-! ## General lemmas about the encoder loop -/

theorem stateAt_succ (s : Sensors) (msg : CANMessage) (n : Nat) :
    stateAt s msg (n + 1) = processByte s msg (stateAt s msg n) n := by
  simp [stateAt, List.range_succ]

set_option maxHeartbeats 2000000 in
/-- Loop invariant: after `n` iterations (`n ≤ msg.len ≤ 8`) the cursor sits
at the fixed offset, exactly the positions `0 .. channelOffset n - 1` have
been written (in order), and the buffer holds the per-channel spec bytes
below the cursor and the `{0}` initialization above it. -/
theorem stateAt_inv (s : Sensors) (msg : CANMessage) (h8 : msg.len ≤ 8) :
    ∀ n, n ≤ msg.len →
      (stateAt s msg n).index = channelOffset n ∧
      (stateAt s msg n).writes = List.range (channelOffset n) ∧
      ∀ j, (stateAt s msg n).donnees j =
        if j < channelOffset n then specByte s msg j else 0 := by
  intro n
  induction n with
  | zero =>
    intro _
    refine ⟨rfl, rfl, fun j => ?_⟩
    simp [stateAt, initState, channelOffset]
  | succ n ih =>
    intro hn
    have hn7 : n ≤ 7 := by omega
    obtain ⟨ih1, ih2, ih3⟩ := ih (by omega)
    rw [stateAt_succ]
    by_cases hb : msg.buf n = 0x11 <;> interval_cases n
    all_goals
      refine ⟨by simp [processByte, hb, encoder_uint16, encoder_float_entier,
          writeByte, ih1, channelOffset],
        by simp [processByte, hb, encoder_uint16, encoder_float_entier,
          writeByte, ih1, ih2, channelOffset] <;> decide,
        fun j => ?_⟩
    all_goals
      rcases Nat.lt_or_ge j 9 with hj | hj
    all_goals
      first
      | (interval_cases j <;>
          simp [processByte, hb, encoder_uint16, encoder_float_entier,
            writeByte, ih1, ih3, channelOffset, specByte, hi8, lo8])
      | (simp [processByte, hb, encoder_uint16, encoder_float_entier,
            writeByte, ih1, ih3, channelOffset] <;>
          (try split_ifs) <;> first | rfl | omega)

theorem buildPayload_donnees (s : Sensors) (msg : CANMessage) (h8 : msg.len ≤ 8) :
    ∀ j, (buildPayload s msg).donnees j =
      if j < channelOffset msg.len then specByte s msg j else 0 :=
  (stateAt_inv s msg h8 msg.len (Nat.le_refl _)).2.2

theorem buildPayload_index (s : Sensors) (msg : CANMessage) (h8 : msg.len ≤ 8) :
    (buildPayload s msg).index = channelOffset msg.len :=
  (stateAt_inv s msg h8 msg.len (Nat.le_refl _)).1

theorem buildPayload_writes (s : Sensors) (msg : CANMessage) (h8 : msg.len ≤ 8) :
    (buildPayload s msg).writes = List.range (channelOffset msg.len) :=
  (stateAt_inv s msg h8 msg.len (Nat.le_refl _)).2.1

theorem channelOffset_le_nine (n : Nat) : channelOffset n ≤ 9 := by
  unfold channelOffset; split <;> omega

theorem channelOffset_nine (n : Nat) (h6 : 6 ≤ n) (h8 : n ≤ 8) :
    channelOffset n = 9 := by
  unfold channelOffset; split <;> omega

theorem channelOffset_mono {m n : Nat} (h : m ≤ n) :
    channelOffset m ≤ channelOffset n := by
  unfold channelOffset; split_ifs <;> omega

theorem channelOffset_add_width {i n : Nat} (hi : i ≤ 5) (hin : i < n) (h8 : n ≤ 8) :
    channelOffset i + channelWidth i ≤ channelOffset n := by
  unfold channelOffset channelWidth; split_ifs <;> omega

/-- `specByte` only looks at bitmap bytes 0–5. -/
theorem specByte_congr (s : Sensors) (msg msg' : CANMessage)
    (h : ∀ i, i ≤ 5 → msg'.buf i = msg.buf i) (j : Nat) :
    specByte s msg' j = specByte s msg j := by
  have h0 := h 0 (by omega); have h1 := h 1 (by omega); have h2 := h 2 (by omega)
  have h3 := h 3 (by omega); have h4 := h 4 (by omega); have h5 := h 5 (by omega)
  simp only [specByte, h0, h1, h2, h3, h4, h5]

/-- The payload region of a channel whose marker lies inside the declared
length is: the encoded sensor value when the marker is `0x11`, the
sentinel fill otherwise. -/
theorem channelRegion_eq (s : Sensors) (msg : CANMessage) (h8 : msg.len ≤ 8)
    (i : Nat) (hi : i ≤ 5) (hlen : i < msg.len) :
    channelRegion s msg i =
      if msg.buf i = 0x11 then channelBytes s i
      else List.replicate (channelWidth i) 0xFF := by
  have hb := buildPayload_donnees s msg h8
  have hw := channelOffset_add_width hi hlen h8
  by_cases hq : msg.buf i = 0x11 <;> interval_cases i <;>
    simp only [channelOffset, channelWidth] at hw <;>
    simp [channelRegion, List.range_succ, channelWidth, channelOffset, hb,
      specByte, channelBytes, hq] <;>
    (try split_ifs) <;> first | rfl | omega

/-- The payload region of a channel whose marker lies at or beyond the
declared length keeps the `{0}` array initialization. -/
theorem channelRegion_beyond (s : Sensors) (msg : CANMessage) (h8 : msg.len ≤ 8)
    (i : Nat) (hi : i ≤ 5) (hlen : msg.len ≤ i) :
    channelRegion s msg i = List.replicate (channelWidth i) 0 := by
  have hb := buildPayload_donnees s msg h8
  have hw := channelOffset_mono hlen
  interval_cases i <;>
    simp only [channelOffset] at hw <;>
    simp [channelRegion, List.range_succ, channelWidth, channelOffset, hb] <;>
    (try split_ifs) <;> first | rfl | omega

/-- Recombining the two bytes written by `encoder_uint16` restores the
16-bit value. -/
theorem hi_lo_recombine (v : Nat) (hv : v < 65536) :
    (hi8 v) <<< 8 ||| lo8 v = v := by
  have h1 : v >>> 8 = v / 256 := by
    rw [Nat.shiftRight_eq_div_pow]
  have h2 : v / 256 < 256 := by omega
  have h3 : lo8 v = v % 256 := by
    have h := Nat.and_pow_two_sub_one_eq_mod v 8
    norm_num at h
    simpa [lo8] using h
  rw [hi8, h1, Nat.mod_eq_of_lt h2, h3, Nat.shiftLeft_eq]
  have h4 := Nat.mul_add_lt_is_or (i := 8) (show v % 256 < 2 ^ 8 by omega) (v / 256)
  rw [Nat.mul_comm (2 ^ 8) (v / 256)] at h4
  rw [← h4]
  omega

/-! ## Claim theorems -/

/-- C1: the claim — for every inbound `0x1A4` frame whose Pressure marker
(byte 5) is not `0x11`, Frame B (`0x1A6`) is not transmitted — fails on the
code: with length 6 and an all-zero bitmap the Pressure region holds the
sentinel `0xFF`, the guard `donnees[8] != 0` is therefore true, and `loop`
transmits Frame B carrying `0xFF`.  This contradicts the source file's own
header comment ("la deuxième trame CAN sera envoyée uniquement si
l'utilisateur demande à recevoir la pression atmosphérique"). -/
theorem frameB_sent_despite_pressure_not_requested :
    loopStep ⟨0, 0, 0, 0, 0, 0, 0, 0⟩ (some ⟨0x1A4, 6, fun _ => 0⟩) =
      [⟨0x1A5, 8, List.replicate 8 0xFF⟩, ⟨0x1A6, 1, [0xFF]⟩] := by
  decide

/-- C2 counterexample: the claim says every channel decoded as not
requested — including channels whose marker lies beyond the declared
length — has its region filled with `0xFF`; but for an inbound `0x1A4`
frame of declared length 0, channel 0 is not requested and its region
keeps the `{0}` initialization, not the sentinel. -/
theorem region_beyond_length_is_zero_not_sentinel :
    channelRegion ⟨0, 0, 0, 0, 0, 0, 0, 0⟩ ⟨0x1A4, 0, fun _ => 0⟩ 0 ≠
      List.replicate (channelWidth 0) 0xFF := by
  decide

/-- C2 (amended): for an inbound `0x1A4` frame of declared length at most
8, a channel whose marker lies within the declared length and differs from
`0x11` has its region filled entirely with `0xFF`; a channel whose marker
lies at or beyond the declared length keeps the `0x00` array
initialization instead. -/
theorem unrequested_channel_fill (s : Sensors) (msg : CANMessage)
    (h8 : msg.len ≤ 8) :
    (∀ i, i ≤ 5 → i < msg.len → msg.buf i ≠ 0x11 →
        channelRegion s msg i = List.replicate (channelWidth i) 0xFF) ∧
    (∀ i, i ≤ 5 → msg.len ≤ i →
        channelRegion s msg i = List.replicate (channelWidth i) 0) := by
  refine ⟨fun i hi hlen hq => ?_, fun i hi hlen => channelRegion_beyond s msg h8 i hi hlen⟩
  rw [channelRegion_eq s msg h8 i hi hlen, if_neg hq]

/-- C2 witness: at declared length 6 with an all-zero bitmap, channel 0's
region is the sentinel fill. -/
theorem unrequested_channel_fill_witness :
    (⟨0x1A4, 6, fun _ => 0⟩ : CANMessage).len ≤ 8 ∧
    channelRegion ⟨0, 0, 0, 0, 0, 0, 0, 0⟩ ⟨0x1A4, 6, fun _ => 0⟩ 0 =
      List.replicate (channelWidth 0) 0xFF :=
  ⟨by decide,
    (unrequested_channel_fill ⟨0, 0, 0, 0, 0, 0, 0, 0⟩ ⟨0x1A4, 6, fun _ => 0⟩
      (by decide)).1 0 (by decide) (by decide) (by decide)⟩

/-- C3: for every inbound `0x1A4` frame with declared length in 6..8 and
any marker values, the encoded payload is exactly 9 bytes; each channel's
region sits at its fixed offset/width (0,2,4,6,7,8 / 2,2,2,1,1,1) and is
determined by that channel's marker alone; and marker bytes at indices 6
and 7 (indeed everything beyond index 5, the declared length included)
have no effect on the payload. -/
theorem payload_fixed_layout (s : Sensors) (msg : CANMessage)
    (h6 : 6 ≤ msg.len) (h8 : msg.len ≤ 8) :
    (encodedPayload s msg).length = 9 ∧
    (∀ i, i ≤ 5 → channelRegion s msg i =
        if msg.buf i = 0x11 then channelBytes s i
        else List.replicate (channelWidth i) 0xFF) ∧
    (∀ msg' : CANMessage, 6 ≤ msg'.len → msg'.len ≤ 8 →
        (∀ i, i ≤ 5 → msg'.buf i = msg.buf i) →
        encodedPayload s msg' = encodedPayload s msg) := by
  refine ⟨by simp [encodedPayload], fun i hi => channelRegion_eq s msg h8 i hi (by omega), ?_⟩
  intro msg' h6' h8' hbuf
  unfold encodedPayload
  refine List.map_congr_left fun j _ => ?_
  rw [buildPayload_donnees s msg' h8' j, buildPayload_donnees s msg h8 j,
    channelOffset_nine _ h6' h8', channelOffset_nine _ h6 h8,
    specByte_congr s msg msg' hbuf j]

/-- C3 witness: at declared length 6 with an all-zero bitmap and zero
sensor readings, the payload has 9 bytes. -/
theorem payload_fixed_layout_witness :
    6 ≤ (⟨0x1A4, 6, fun _ => 0⟩ : CANMessage).len ∧
    (⟨0x1A4, 6, fun _ => 0⟩ : CANMessage).len ≤ 8 ∧
    (encodedPayload ⟨0, 0, 0, 0, 0, 0, 0, 0⟩ ⟨0x1A4, 6, fun _ => 0⟩).length = 9 :=
  ⟨by decide, by decide,
    (payload_fixed_layout ⟨0, 0, 0, 0, 0, 0, 0, 0⟩ ⟨0x1A4, 6, fun _ => 0⟩
      (by decide) (by decide)).1⟩

/-- C4: for every inbound `0x1A4` frame, Frame B (`0x1A6`, length 1,
payload = byte 8) is transmitted iff payload byte 8 is non-zero; in
particular, when Pressure is requested and its kPa value truncates to 0,
Frame B is not transmitted. -/
theorem frameB_iff_byte8_nonzero (s : Sensors) (msg : CANMessage)
    (hid : msg.id = 0x1A4) :
    (frameB s msg ∈ loopStep s (some msg) ↔ (buildPayload s msg).donnees 8 ≠ 0) ∧
    (6 ≤ msg.len → msg.len ≤ 8 → msg.buf 5 = 0x11 →
      truncUint8 (s.pressPa / 1000) = 0 →
      loopStep s (some msg) = [frameA s msg]) := by
  constructor
  · by_cases hz : (buildPayload s msg).donnees 8 = 0
    · simp [loopStep, hid, hz, frameA, frameB]
    · simp [loopStep, hid, hz]
  · intro h6 h8 hb5 htr
    have hd : (buildPayload s msg).donnees 8 = 0 := by
      rw [buildPayload_donnees s msg h8 8, channelOffset_nine _ h6 h8]
      simp [specByte, hb5, htr]
    simp [loopStep, hid, hd]

/-- C4 witness: pressure requested with a 0 Pa reading (0 kPa, truncating
to 0) suppresses Frame B; only Frame A is sent. -/
theorem frameB_iff_byte8_nonzero_witness :
    (⟨0x1A4, 6, fun _ => 0x11⟩ : CANMessage).id = 0x1A4 ∧
    loopStep ⟨0, 0, 0, 0, 0, 0, 0, 0⟩ (some ⟨0x1A4, 6, fun _ => 0x11⟩) =
      [frameA ⟨0, 0, 0, 0, 0, 0, 0, 0⟩ ⟨0x1A4, 6, fun _ => 0x11⟩] :=
  ⟨rfl,
    (frameB_iff_byte8_nonzero ⟨0, 0, 0, 0, 0, 0, 0, 0⟩ ⟨0x1A4, 6, fun _ => 0x11⟩
      rfl).2 (by decide) (by decide) (by decide) (by simp [truncUint8])⟩

/-- C5: `encoder_uint16` writes the high-order byte first (at the cursor)
and the low-order byte second, and `(first byte <<< 8) ||| second byte`
restores the encoded 16-bit value. -/
theorem encoder_uint16_msb_first_roundtrip (v : Nat) (st : EncState)
    (hv : v < 65536) :
    (encoder_uint16 v st).donnees st.index = hi8 v ∧
    (encoder_uint16 v st).donnees (st.index + 1) = lo8 v ∧
    (encoder_uint16 v st).donnees st.index <<< 8 |||
      (encoder_uint16 v st).donnees (st.index + 1) = v := by
  have e1 : (encoder_uint16 v st).donnees st.index = hi8 v := by
    simp [encoder_uint16, writeByte, hi8]
  have e2 : (encoder_uint16 v st).donnees (st.index + 1) = lo8 v := by
    simp [encoder_uint16, writeByte, lo8]
  exact ⟨e1, e2, by rw [e1, e2]; exact hi_lo_recombine v hv⟩

/-- C5 witness: the value 300 (`0x012C`) round-trips through the two bytes
written at positions 0 and 1. -/
theorem encoder_uint16_msb_first_roundtrip_witness :
    (300 : Nat) < 65536 ∧
    (encoder_uint16 300 initState).donnees initState.index <<< 8 |||
      (encoder_uint16 300 initState).donnees (initState.index + 1) = 300 :=
  ⟨by decide, (encoder_uint16_msb_first_roundtrip 300 initState (by decide)).2.2⟩

/-- C6: for an inbound `0x1A4` frame and any index `i` below both the
declared length and 6, channel `i`'s region holds the encoded sensor value
exactly when the bitmap byte at `i` equals `0x11`, and the sentinel fill
for every other byte value; no error is raised in either case. -/
theorem marker_equality_decides_request (s : Sensors) (msg : CANMessage)
    (h8 : msg.len ≤ 8) (i : Nat) (hi : i ≤ 5) (hlen : i < msg.len) :
    channelRegion s msg i =
      if msg.buf i = 0x11 then channelBytes s i
      else List.replicate (channelWidth i) 0xFF :=
  channelRegion_eq s msg h8 i hi hlen

/-- C6 witness: a `0xFF` marker (the documented "unused" convention) at
index 1 decodes to "not requested" and yields the sentinel region. -/
theorem marker_equality_decides_request_witness :
    (⟨0x1A4, 6, fun _ => 0xFF⟩ : CANMessage).len ≤ 8 ∧ (1 : Nat) ≤ 5 ∧
    channelRegion ⟨0, 0, 0, 0, 0, 0, 0, 0⟩ ⟨0x1A4, 6, fun _ => 0xFF⟩ 1 =
      if (⟨0x1A4, 6, fun _ => 0xFF⟩ : CANMessage).buf 1 = 0x11
      then channelBytes ⟨0, 0, 0, 0, 0, 0, 0, 0⟩ 1
      else List.replicate (channelWidth 1) 0xFF :=
  ⟨by decide, by decide,
    marker_equality_decides_request ⟨0, 0, 0, 0, 0, 0, 0, 0⟩
      ⟨0x1A4, 6, fun _ => 0xFF⟩ (by decide) 1 (by decide) (by decide)⟩

/-- C7: for every inbound `0x1A4` frame, Frame A — identifier `0x1A5`,
length 8, carrying payload bytes 0–7 — is transmitted first,
unconditionally; any other transmitted frame is Frame B with identifier
`0x1A6` and length 1. -/
theorem frameA_always_sent (s : Sensors) (msg : CANMessage)
    (hid : msg.id = 0x1A4) :
    loopStep s (some msg) =
      frameA s msg ::
        (if (buildPayload s msg).donnees 8 ≠ 0 then [frameB s msg] else []) ∧
    (frameA s msg).id = 0x1A5 ∧ (frameA s msg).len = 8 ∧
    (frameA s msg).buf = (encodedPayload s msg).take 8 ∧
    ∀ f ∈ loopStep s (some msg),
      f = frameA s msg ∨ (f.id = 0x1A6 ∧ f.len = 1) := by
  have htake : (encodedPayload s msg).take 8 =
      (List.range 8).map (buildPayload s msg).donnees := by
    unfold encodedPayload
    rw [← List.map_take]
    congr 1
  refine ⟨by simp [loopStep, hid], rfl, rfl, by rw [htake]; rfl, ?_⟩
  intro f hf
  by_cases hz : (buildPayload s msg).donnees 8 = 0 <;>
    simp [loopStep, hid, hz] at hf
  · exact Or.inl hf
  · rcases hf with hf | hf
    · exact Or.inl hf
    · exact Or.inr (by simp [hf, frameB])

/-- C7 witness: at a concrete `0x1A4` frame the first transmitted frame is
Frame A with identifier `0x1A5` and length 8. -/
theorem frameA_always_sent_witness :
    (⟨0x1A4, 6, fun _ => 0⟩ : CANMessage).id = 0x1A4 ∧
    (frameA ⟨0, 0, 0, 0, 0, 0, 0, 0⟩ ⟨0x1A4, 6, fun _ => 0⟩).id = 0x1A5 ∧
    (frameA ⟨0, 0, 0, 0, 0, 0, 0, 0⟩ ⟨0x1A4, 6, fun _ => 0⟩).len = 8 :=
  ⟨rfl,
    (frameA_always_sent ⟨0, 0, 0, 0, 0, 0, 0, 0⟩ ⟨0x1A4, 6, fun _ => 0⟩ rfl).2.1,
    (frameA_always_sent ⟨0, 0, 0, 0, 0, 0, 0, 0⟩ ⟨0x1A4, 6, fun _ => 0⟩ rfl).2.2.1⟩

/-- C8: an inbound frame whose identifier differs from `0x1A4` produces no
outbound frame; the result is `[]` for every sensor state, so no sensor
value can influence (or be demanded by) the iteration. -/
theorem other_ids_ignored (s : Sensors) (msg : CANMessage)
    (hid : msg.id ≠ 0x1A4) :
    loopStep s (some msg) = [] := by
  simp [loopStep, hid]

/-- C8 witness: identifier `0x123` is ignored. -/
theorem other_ids_ignored_witness :
    (⟨0x123, 6, fun _ => 0x11⟩ : CANMessage).id ≠ 0x1A4 ∧
    loopStep ⟨0, 0, 0, 0, 0, 0, 0, 0⟩ (some ⟨0x123, 6, fun _ => 0x11⟩) = [] :=
  ⟨by decide,
    other_ids_ignored ⟨0, 0, 0, 0, 0, 0, 0, 0⟩ ⟨0x123, 6, fun _ => 0x11⟩ (by decide)⟩

/-- C9: when Pressure is requested, payload byte 8 is the pressure reading
in pascals divided by 1000 and truncated toward zero (reduced mod 256 by
the `uint8_t` cast); for a reading of 101.3 kPa (101300 Pa) the byte is
101 = `0x65` and Frame B is transmitted carrying it. -/
theorem pressure_truncated_kpa (s : Sensors) (msg : CANMessage)
    (hid : msg.id = 0x1A4) (h6 : 6 ≤ msg.len) (h8 : msg.len ≤ 8)
    (hb5 : msg.buf 5 = 0x11) :
    (buildPayload s msg).donnees 8 = truncUint8 (s.pressPa / 1000) ∧
    (s.pressPa = 101300 →
      (buildPayload s msg).donnees 8 = 101 ∧
      loopStep s (some msg) = [frameA s msg, frameB s msg] ∧
      frameB s msg = ⟨0x1A6, 1, [101]⟩) := by
  have hd : (buildPayload s msg).donnees 8 = truncUint8 (s.pressPa / 1000) := by
    rw [buildPayload_donnees s msg h8 8, channelOffset_nine _ h6 h8]
    simp [specByte, hb5]
  refine ⟨hd, fun hp => ?_⟩
  have h101 : truncUint8 (s.pressPa / 1000) = 101 := by
    rw [hp]; norm_num [truncUint8]; decide
  have hd101 : (buildPayload s msg).donnees 8 = 101 := by rw [hd, h101]
  exact ⟨hd101, by simp [loopStep, hid, hd101], by simp [frameB, hd101]⟩

/-- C9 witness: with a 101300 Pa reading and only Pressure requested,
byte 8 is the truncated kPa value and Frame B carries 101. -/
theorem pressure_truncated_kpa_witness :
    (⟨0x1A4, 6, fun i => if i = 5 then 0x11 else 0⟩ : CANMessage).id = 0x1A4 ∧
    ((buildPayload ⟨0, 0, 0, 0, 0, 0, 0, 101300⟩
        ⟨0x1A4, 6, fun i => if i = 5 then 0x11 else 0⟩).donnees 8 =
      truncUint8 ((101300 : ℚ) / 1000) ∧
    ((101300 : ℚ) = 101300 →
      (buildPayload ⟨0, 0, 0, 0, 0, 0, 0, 101300⟩
          ⟨0x1A4, 6, fun i => if i = 5 then 0x11 else 0⟩).donnees 8 = 101 ∧
      loopStep ⟨0, 0, 0, 0, 0, 0, 0, 101300⟩
          (some ⟨0x1A4, 6, fun i => if i = 5 then 0x11 else 0⟩) =
        [frameA ⟨0, 0, 0, 0, 0, 0, 0, 101300⟩
            ⟨0x1A4, 6, fun i => if i = 5 then 0x11 else 0⟩,
          frameB ⟨0, 0, 0, 0, 0, 0, 0, 101300⟩
            ⟨0x1A4, 6, fun i => if i = 5 then 0x11 else 0⟩] ∧
      frameB ⟨0, 0, 0, 0, 0, 0, 0, 101300⟩
          ⟨0x1A4, 6, fun i => if i = 5 then 0x11 else 0⟩ = ⟨0x1A6, 1, [101]⟩)) :=
  ⟨rfl,
    pressure_truncated_kpa ⟨0, 0, 0, 0, 0, 0, 0, 101300⟩
      ⟨0x1A4, 6, fun i => if i = 5 then 0x11 else 0⟩
      rfl (by decide) (by decide) rfl⟩

/-- C10: for any inbound `0x1A4` frame with declared length at most 8 and
arbitrary data, every store into `donnees` happens at an index below 9 and
the cursor never exceeds 9: no out-of-bounds write is reachable. -/
theorem no_out_of_bounds_write (s : Sensors) (msg : CANMessage)
    (h8 : msg.len ≤ 8) :
    (∀ w ∈ (buildPayload s msg).writes, w < 9) ∧
    (buildPayload s msg).index ≤ 9 ∧
    (∀ n, n ≤ msg.len → (stateAt s msg n).index ≤ 9) := by
  refine ⟨fun w hw => ?_, ?_, fun n hn => ?_⟩
  · rw [buildPayload_writes s msg h8] at hw
    have h := List.mem_range.mp hw
    have h9 := channelOffset_le_nine msg.len
    omega
  · rw [buildPayload_index s msg h8]; exact channelOffset_le_nine _
  · rw [(stateAt_inv s msg h8 n hn).1]; exact channelOffset_le_nine _

/-- C10 witness: at declared length 8 with every marker `0x11`, all logged
writes are below index 9. -/
theorem no_out_of_bounds_write_witness :
    (⟨0x1A4, 8, fun _ => 0x11⟩ : CANMessage).len ≤ 8 ∧
    ∀ w ∈ (buildPayload ⟨0, 0, 0, 0, 0, 0, 0, 0⟩ ⟨0x1A4, 8, fun _ => 0x11⟩).writes,
      w < 9 :=
  ⟨by decide,
    (no_out_of_bounds_write ⟨0, 0, 0, 0, 0, 0, 0, 0⟩ ⟨0x1A4, 8, fun _ => 0x11⟩
      (by decide)).1⟩

end Capteur
